import Mathlib

/-!
Verification development for the deep-ai chat client core: the session
memory / context-injection subsystem (`src/lib/memory.ts`) and the
provider-routing / response-normalization layer
(`src/app/api/pollinations/text/route.ts`, `src/app/api/local/route.ts`),
shallowly embedded as executable Lean definitions.

JavaScript values flowing through the handlers are modelled by an
explicit `Json` type with JavaScript truthiness, member access on
`undefined` raising a `TypeError` (as `Except.error`), and optional
chaining returning `undefined`.  Database rows are a list in insertion
order (Prisma `orderBy createdAt asc` equals insertion order, per the
monotone-timestamp data model).  The network is an oracle
`DispatchReq -> Option NetResp`; `none` models a rejected fetch.
-/

namespace DeepAI

/-- JavaScript/JSON value model. `undef` covers both `undefined` and `null`. -/
inductive Json where
  | undef
  | str (s : String)
  | num (n : Int)
  | boolean (b : Bool)
  | arr (elems : List Json)
  | obj (fields : List (String × Json))

/-- Field lookup in an object literal (first match; claims use distinct keys). -/
def lookupField : List (String × Json) → String → Json
  | [], _ => Json.undef
  | (k, v) :: fs, key => if k = key then v else lookupField fs key

/-- JavaScript truthiness. -/
def jsTruthy : Json → Bool
  | Json.undef => false
  | Json.str s => decide (s ≠ "")
  | Json.num n => decide (n ≠ 0)
  | Json.boolean b => b
  | Json.arr _ => true
  | Json.obj _ => true

/-- JavaScript `a || b`. -/
def jsOrV (a b : Json) : Json := if jsTruthy a then a else b

/-- Escape one character for JSON string serialization. -/
def jsonEscapeChar (c : Char) : String :=
  if c = '\\' then "\\\\"
  else if c = '"' then "\\\""
  else if c = '\n' then "\\n"
  else String.singleton c

/-- JSON string quoting, as produced by `JSON.stringify`. -/
def jsonQuote (s : String) : String :=
  "\"" ++ String.join (s.data.map jsonEscapeChar) ++ "\""

/-- Comma-join, as `Array.prototype.join` with separator `,`. -/
def jsJoinComma : List String → String
  | [] => ""
  | [x] => x
  | x :: xs => x ++ "," ++ jsJoinComma xs

mutual

/-- `JSON.stringify` on the value model. -/
def jsonStringify : Json → String
  | Json.undef => "null"
  | Json.str s => jsonQuote s
  | Json.num n => toString n
  | Json.boolean b => if b then "true" else "false"
  | Json.arr xs => "[" ++ jsJoinComma (jsonStringifyList xs) ++ "]"
  | Json.obj fs => "\x7b" ++ jsJoinComma (jsonStringifyFields fs) ++ "\x7d"

/-- Serialize each array element. -/
def jsonStringifyList : List Json → List String
  | [] => []
  | x :: xs => jsonStringify x :: jsonStringifyList xs

/-- Serialize each object field as `"key":value`. -/
def jsonStringifyFields : List (String × Json) → List String
  | [] => []
  | (k, v) :: fs => (jsonQuote k ++ ":" ++ jsonStringify v) :: jsonStringifyFields fs

end

/-- The string a JavaScript value contributes when used as response text. -/
def jsToDisplayString : Json → String
  | Json.str s => s
  | v => jsonStringify v

/-- Plain member access `a.k`: a `TypeError` when `a` is `undefined`/`null`. -/
def jsMember (a : Json) (k : String) : Except String Json :=
  match a with
  | Json.undef => Except.error ("TypeError: cannot read " ++ k ++ " of undefined")
  | Json.obj fs => Except.ok (lookupField fs k)
  | _ => Except.ok Json.undef

/-- Plain index access `a[i]`: a `TypeError` when `a` is `undefined`/`null`. -/
def jsIndex (a : Json) (i : Nat) : Except String Json :=
  match a with
  | Json.undef => Except.error ("TypeError: cannot read " ++ toString i ++ " of undefined")
  | Json.arr xs => Except.ok (xs.getD i Json.undef)
  | _ => Except.ok Json.undef

/-- Optional-chaining member access `a?.k`. -/
def jsOptMember (a : Json) (k : String) : Json :=
  match a with
  | Json.undef => Json.undef
  | Json.obj fs => lookupField fs k
  | _ => Json.undef

/-- Optional-chaining index access `a?.[i]`. -/
def jsOptIndex (a : Json) (i : Nat) : Json :=
  match a with
  | Json.undef => Json.undef
  | Json.arr xs => xs.getD i Json.undef
  | _ => Json.undef

/-- JavaScript falsiness of an optional string (absent or empty). -/
def optStrFalsy : Option String → Bool
  | none => true
  | some s => decide (s = "")

/-- `a || b` on optional strings. -/
def jsOrOpt (a b : Option String) : Option String :=
  if optStrFalsy a then b else a

/-- `model || dflt` on an optional string with a string default. -/
def jsOrStr (o : Option String) (d : String) : String :=
  match o with
  | none => d
  | some s => if s = "" then d else s

/-! ## `src/lib/memory.ts` -/

/-- Message role, the TypeScript union `'user' | 'assistant'`. -/
inductive Role where
  | user
  | assistant
deriving DecidableEq, Repr

/-- One persisted chat-memory row (`db.chatMemory` record), in insertion order. -/
structure Row where
  sessionId : String
  role : Role
  content : String
deriving DecidableEq, Repr

/-- The `ChatMessage` interface of `memory.ts`. -/
structure ChatMessage where
  role : Role
  content : String
deriving DecidableEq, Repr

/-- `ChatMemory.saveMessage`: `db.chatMemory.create` appends one row. -/
def saveMessage (db : List Row) (sid : String) (r : Role) (c : String) : List Row :=
  db ++ [⟨sid, r, c⟩]

/-- Rows of one session, in `createdAt asc` (= insertion) order. -/
def sessionRows (db : List Row) (sid : String) : List Row :=
  db.filter (fun r => decide (r.sessionId = sid))

/-- `ChatMemory.getMemory`: `findMany` ordered ascending with `take limit`. -/
def getMemory (db : List Row) (sid : String) (limit : Nat) : List ChatMessage :=
  ((sessionRows db sid).take limit).map (fun r => ⟨r.role, r.content⟩)

/-- `ChatMemory.getFullMemory`: `findMany` ordered ascending, no `take`. -/
def getFullMemory (db : List Row) (sid : String) : List ChatMessage :=
  (sessionRows db sid).map (fun r => ⟨r.role, r.content⟩)

/-- `msg.role.toUpperCase()` on the `'user' | 'assistant'` union. -/
def roleUpperCase : Role → String
  | Role.user => "USER"
  | Role.assistant => "ASSISTANT"

/-- `Array.prototype.join` with an arbitrary separator. -/
def jsJoin (sep : String) : List String → String
  | [] => ""
  | [x] => x
  | x :: xs => x ++ sep ++ jsJoin sep xs

/-- `ChatMemory.formatMemoryForPrompt`: empty input gives the empty string,
otherwise `ROLE: content` lines (role upper-cased) joined by newlines inside
the labeled context block. -/
def formatMemoryForPrompt (memory : List ChatMessage) : String :=
  if memory.length = 0 then ""
  else
    "[Previous Conversation Context]\n" ++
      jsJoin "\n" (memory.map (fun m => roleUpperCase m.role ++ ": " ++ m.content)) ++
      "\n[End of Context]\n\n"

/-- `new ChatMemory(sessionId)`: `sessionId || this.generateSessionId()`,
with `fresh` standing for the minted `session_<time>_<random>` token. -/
def newChatMemory (sessionId : Option String) (fresh : String) : String :=
  if optStrFalsy sessionId then fresh else sessionId.getD ""

/-- `getChatMemory(sessionId)` acting on the module-level singleton: `cur` is
the current instance state (its session id), the result is the session id of
the returned instance (which also becomes the new singleton state). -/
def getChatMemory (cur : Option String) (sessionId : Option String) (fresh : String) : String :=
  match cur with
  | none => newChatMemory sessionId fresh
  | some c =>
      if optStrFalsy sessionId = false ∧ c ≠ sessionId.getD "" then
        newChatMemory sessionId fresh
      else c

/-! ## `src/app/api/pollinations/text/route.ts`, `POST` handler -/

/-- One request file attachment (`files` entry): name, MIME type, content. -/
structure FileAtt where
  name : String
  type : String
  content : String
deriving DecidableEq, Repr

/-- A caller-supplied provider entry (`customApis`/`localModels` item or
`selectedApiConfig`). -/
structure ApiConfigT where
  id : String
  endpoint : Option String
  apiKey : Option String
deriving DecidableEq, Repr

/-- The parsed JSON body of the `POST` request. -/
structure ReqBody where
  prompt : Option String
  model : Option String
  seed : Option String
  temperature : Option String
  maxTokens : Option String
  files : List FileAtt
  sessionId : Option String
  selectedApi : Option String
  selectedApiConfig : Option ApiConfigT
  customApis : List ApiConfigT
  localModels : List ApiConfigT
deriving Repr

/-- The upstream endpoint a dispatch goes to. -/
inductive Target where
  | pollinationsGET
  | openaiChat
  | mistralChat
  | anthropicMessages
  | custom (endpoint : String)
deriving DecidableEq, Repr

/-- One outbound network call (`fetch`): where it went, with what method,
whether an auth header was attached, and the prompt/model it carried.
Numeric options (temperature, max tokens) are carried upstream of this
record and are not inspected by any claim. -/
structure DispatchReq where
  target : Target
  method : String
  hasAuth : Bool
  prompt : String
  model : String
deriving DecidableEq, Repr

/-- A settled `fetch` response: HTTP ok flag and status, the body as JSON
(`Except.error` models a `response.json()` parse throw) and as text. -/
structure NetResp where
  ok : Bool
  status : Nat
  jsonBody : Except String Json
  textBody : String

/-- Handler environment: the network oracle (`none` models a rejected
`fetch`), `process.env.OPENAI_API_KEY`, and the id `generateSessionId`
would mint. -/
structure Env where
  net : DispatchReq → Option NetResp
  openaiKey : Option String
  freshId : String

/-- Extraction for the built-in OpenAI branch:
`data.choices[0]?.message?.content || 'No response from OpenAI'`.
`data.choices` and the `[0]` index are plain accesses (only the chain after
`[0]` is optional), so a missing `choices` raises a `TypeError`. -/
def extractOpenAI (data : Json) : Except String String := do
  let c ← jsMember data "choices"
  let x ← jsIndex c 0
  let v := jsOptMember (jsOptMember x "message") "content"
  pure (if jsTruthy v then jsToDisplayString v else "No response from OpenAI")

/-- Extraction for the built-in Mistral branch:
`data.choices[0]?.message?.content || 'No response from Mistral'`. -/
def extractMistral (data : Json) : Except String String := do
  let c ← jsMember data "choices"
  let x ← jsIndex c 0
  let v := jsOptMember (jsOptMember x "message") "content"
  pure (if jsTruthy v then jsToDisplayString v else "No response from Mistral")

/-- Extraction for the built-in Claude branch:
`data.content?.[0]?.text || 'No response from Claude'`. -/
def extractClaude (data : Json) : Except String String := do
  let c ← jsMember data "content"
  let v := jsOptMember (jsOptIndex c 0) "text"
  pure (if jsTruthy v then jsToDisplayString v else "No response from Claude")

/-- Extraction for the custom-API branch of the text route:
`data.choices?.[0]?.message?.content || data.content || data.response ||
JSON.stringify(data)`. -/
def extractCustomRoute (data : Json) : Except String String := do
  let c ← jsMember data "choices"
  let v := jsOrV (jsOptMember (jsOptMember (jsOptIndex c 0) "message") "content")
    (jsOrV (jsOptMember data "content") (jsOptMember data "response"))
  pure (if jsTruthy v then jsToDisplayString v else jsonStringify data)

/-- Mistral model-name mapping (`let mistralModel = model || 'mistral-tiny'`
followed by the remapping conditionals on `model`). -/
def mistralModelFor (model : Option String) : String :=
  if model = some "gpt-3.5-turbo" ∨ model = some "gpt-4" ∨ model = some "OpenAI" then
    "mistral-tiny"
  else if model = some "claude-3-sonnet" ∨ model = some "claude-3-haiku" then
    "mistral-small"
  else jsOrStr model "mistral-tiny"

/-- Claude model-name mapping. -/
def claudeModelFor (model : Option String) : String :=
  if model = some "gpt-3.5-turbo" ∨ model = some "gpt-4" ∨ model = some "OpenAI" then
    "claude-3-haiku-20240307"
  else if model = some "mistral-tiny" ∨ model = some "mistral-small" then
    "claude-3-sonnet-20240229"
  else jsOrStr model "claude-3-haiku-20240307"

/-- The instruction appended after the context-augmented current message. -/
def contextInstruction : String :=
  "\n\nPlease respond to the current message while being aware of the previous conversation context. If the user references something from earlier in the conversation, acknowledge it and continue naturally. Maintain consistency with previous responses."

/-- The structured-formatting instruction appended when `selectedApi` is not
`'pollinations'`. -/
def structuredInstruction : String :=
  "\n\nPlease format your response with proper structure:\n- Use code blocks with language specification (e.g., \x60\x60\x60javascript, \x60\x60\x60python)\n- Use numbered or bulleted lists for clarity\n- Use proper headings and formatting\n- Include JSON data in formatted code blocks\n- Make code snippets copyable and well-formatted"

/-- One attached text file rendered as a delimited section. -/
def fileSection (f : FileAtt) : String :=
  "\n--- File: " ++ f.name ++ " (" ++ f.type ++ ") ---\n" ++ f.content ++
    "\n--- End of " ++ f.name ++ " ---"

/-- The text-file filter of the files block. -/
def isTextFile (f : FileAtt) : Bool :=
  f.type.startsWith "text/" || f.name.endsWith ".txt" || f.name.endsWith ".md" ||
  f.name.endsWith ".json" || f.name.endsWith ".js" || f.name.endsWith ".ts" ||
  f.name.endsWith ".jsx" || f.name.endsWith ".tsx" || f.name.endsWith ".py" ||
  f.name.endsWith ".html" || f.name.endsWith ".css" || f.name.endsWith ".xml" ||
  f.name.endsWith ".csv"

/-- The files block appended to the enhanced prompt when text attachments
are present. -/
def appendFilesBlock (enhanced : String) (files : List FileAtt) : String :=
  if files.length > 0 then
    let textFiles := files.filter isTextFile
    if textFiles.length > 0 then
      enhanced ++ "\n\n[Attached Files Content]\n" ++
        jsJoin "\n\n" (textFiles.map fileSection) ++
        "\n[End of Files]\n\nPlease consider the content of these attached files when responding to the user\x27s message."
    else enhanced
  else enhanced

/-- The enhanced prompt: memory-context template, then the files block, then
the structured-formatting instruction (skipped only for `'pollinations'`). -/
def buildEnhanced (p memoryContext : String) (b : ReqBody) : String :=
  let e1 := if memoryContext = "" then p
    else memoryContext ++ "Current user message: " ++ p ++ contextInstruction
  let e2 := appendFilesBlock e1 b.files
  if b.selectedApi = some "pollinations" then e2 else e2 ++ structuredInstruction

/-- Outcome of the provider-branch section of the handler body:
an early `return` with an error response, a thrown error that the outer
`catch` will turn into a 500, or a completed branch carrying the `response`
and `responseData` variables plus the dispatches performed. -/
inductive BranchOut where
  | earlyErr (status : Nat) (msg : String) (dispatches : List DispatchReq)
  | thrown (msg : String) (dispatches : List DispatchReq)
  | done (resp : Option NetResp) (data : Option String) (dispatches : List DispatchReq)

/-- The parameterless Pollinations fallback `fetch(apiUrl)` used by the
custom-API branch (no query parameters). -/
def pollinationsPlain (enhanced : String) : DispatchReq :=
  ⟨Target.pollinationsGET, "GET", false, enhanced, ""⟩

/-- The main Pollinations dispatch, with the model query parameter applied
exactly when `model` is truthy and not `'OpenAI'`/`'openai'` (lower-cased). -/
def pollinationsDispatch (b : ReqBody) (enhanced : String) : DispatchReq :=
  { target := Target.pollinationsGET
    method := "GET"
    hasAuth := false
    prompt := enhanced
    model :=
      match b.model with
      | none => ""
      | some m => if m ≠ "" ∧ m ≠ "OpenAI" ∧ m ≠ "openai" then m.toLower else "" }

/-- The Pollinations fallback performed from the custom-API branch `catch`:
a throw here propagates to the outer `catch`. -/
def fallbackFromCatch (env : Env) (enhanced : String) (ds : List DispatchReq) : BranchOut :=
  let d := pollinationsPlain enhanced
  match env.net d with
  | none => BranchOut.thrown "TypeError: fetch failed" (ds ++ [d])
  | some resp =>
      if resp.ok then BranchOut.done (some resp) (some resp.textBody) (ds ++ [d])
      else BranchOut.done (some resp) none (ds ++ [d])

/-- The Pollinations fallback taken when the custom API is not found: it runs
inside the inner `try`, so a throw is caught and retried via the `catch`
fallback. -/
def fallbackNotFound (env : Env) (enhanced : String) (ds : List DispatchReq) : BranchOut :=
  let d := pollinationsPlain enhanced
  match env.net d with
  | none => fallbackFromCatch env enhanced (ds ++ [d])
  | some resp =>
      if resp.ok then BranchOut.done (some resp) (some resp.textBody) (ds ++ [d])
      else BranchOut.done (some resp) none (ds ++ [d])

/-- The custom-API branch (`else` arm of the `selectedApi` conditional chain):
resolve the id against `customApis ++ localModels`, falling back to
`selectedApiConfig`, then dispatch to the configured endpoint, or fall back
to Pollinations when unresolved; errors inside the branch are caught and
also fall back to Pollinations. -/
def customBranch (env : Env) (b : ReqBody) (enhanced : String) : BranchOut :=
  let allApis := b.customApis ++ b.localModels
  let found := allApis.find? (fun a => decide (a.id = b.selectedApi.getD ""))
  let apiConfig := match found with
    | some c => some c
    | none => b.selectedApiConfig
  match apiConfig with
  | some cfg =>
      if optStrFalsy cfg.endpoint then fallbackNotFound env enhanced []
      else
        let d : DispatchReq :=
          ⟨Target.custom (cfg.endpoint.getD ""), "POST", !optStrFalsy cfg.apiKey,
            enhanced, jsOrStr b.model "default"⟩
        match env.net d with
        | none => fallbackFromCatch env enhanced [d]
        | some resp =>
            if resp.ok then
              match resp.jsonBody with
              | Except.error _ => fallbackFromCatch env enhanced [d]
              | Except.ok data =>
                  match extractCustomRoute data with
                  | Except.error _ => fallbackFromCatch env enhanced [d]
                  | Except.ok s => BranchOut.done (some resp) (some s) [d]
            else BranchOut.done (some resp) none [d]
  | none => fallbackNotFound env enhanced []

/-- A messages-dialect branch (OpenAI/Mistral/Claude) after the key check:
dispatch, then on HTTP ok parse JSON and run the branch extractor, where a
parse or extraction throw propagates to the outer `catch`. -/
def messagesBranch (env : Env) (d : DispatchReq)
    (extract : Json → Except String String) : BranchOut :=
  match env.net d with
  | none => BranchOut.thrown "TypeError: fetch failed" [d]
  | some resp =>
      if resp.ok then
        match resp.jsonBody with
        | Except.error m => BranchOut.thrown m [d]
        | Except.ok data =>
            match extract data with
            | Except.error m => BranchOut.thrown m [d]
            | Except.ok s => BranchOut.done (some resp) (some s) [d]
      else BranchOut.done (some resp) none [d]

/-- The `selectedApi` conditional chain of the handler. -/
def runBranch (env : Env) (b : ReqBody) (enhanced : String) : BranchOut :=
  if b.selectedApi = some "openai" then
    let apiKey := jsOrOpt (b.selectedApiConfig.bind (fun c => c.apiKey)) env.openaiKey
    if optStrFalsy apiKey then BranchOut.earlyErr 400 "OpenAI API key is required" []
    else
      messagesBranch env
        ⟨Target.openaiChat, "POST", true, enhanced, jsOrStr b.model "gpt-3.5-turbo"⟩
        extractOpenAI
  else if b.selectedApi = some "mistral" then
    let apiKey := b.selectedApiConfig.bind (fun c => c.apiKey)
    if optStrFalsy apiKey then BranchOut.earlyErr 400 "Mistral API key is required" []
    else
      messagesBranch env
        ⟨Target.mistralChat, "POST", true, enhanced, mistralModelFor b.model⟩
        extractMistral
  else if b.selectedApi = some "claude" then
    let apiKey := b.selectedApiConfig.bind (fun c => c.apiKey)
    if optStrFalsy apiKey then BranchOut.earlyErr 400 "Claude API key is required" []
    else
      messagesBranch env
        ⟨Target.anthropicMessages, "POST", true, enhanced, claudeModelFor b.model⟩
        extractClaude
  else if b.selectedApi = some "pollinations" ∨ optStrFalsy b.selectedApi then
    let d := pollinationsDispatch b enhanced
    match env.net d with
    | none => BranchOut.thrown "TypeError: fetch failed" [d]
    | some resp =>
        if resp.ok then BranchOut.done (some resp) (some resp.textBody) [d]
        else BranchOut.done (some resp) none [d]
  else customBranch env b enhanced

/-- An error response (`NextResponse.json({ error }, { status })`). -/
structure ErrResp where
  status : Nat
  error : String
deriving DecidableEq, Repr

/-- The success response of the handler (fields not inspected by any claim
— timestamp, filesProcessed, memoryContext flag — are omitted). -/
structure OkResp where
  response : String
  sessionId : String
deriving DecidableEq, Repr

/-- Everything observable about one handler run: the HTTP result, the
database rows afterwards, the memory singleton afterwards, the network
dispatches performed, and the memory context that was injected. -/
structure PostOutcome where
  result : Except ErrResp OkResp
  db : List Row
  cur : Option String
  dispatches : List DispatchReq
  contextUsed : String

/-- The tail of the handler after the provider branch: the
`!response || !response.ok` throw, the assistant-turn save, and the success
response; thrown errors become the outer-catch 500. -/
def finishPost (db1 : List Row) (cur1 : Option String) (sid : String)
    (memoryContext : String) (out : BranchOut) : PostOutcome :=
  match out with
  | BranchOut.earlyErr st msg ds =>
      ⟨Except.error ⟨st, msg⟩, db1, cur1, ds, memoryContext⟩
  | BranchOut.thrown msg ds =>
      ⟨Except.error ⟨500, msg⟩, db1, cur1, ds, memoryContext⟩
  | BranchOut.done resp data ds =>
      match resp with
      | none =>
          ⟨Except.error ⟨500, "API error: Network - No response"⟩, db1, cur1, ds, memoryContext⟩
      | some r =>
          if r.ok then
            let s := data.getD ""
            ⟨Except.ok ⟨s, sid⟩, saveMessage db1 sid Role.assistant s, cur1, ds, memoryContext⟩
          else
            ⟨Except.error ⟨500, "API error: " ++
                (if r.status = 0 then "Network" else toString r.status) ++ " - " ++ r.textBody⟩,
              db1, cur1, ds, memoryContext⟩

/-- The `POST` handler of the text route: prompt guard, singleton session
resolution, user-turn save, context read and injection, provider branch,
failure check, assistant-turn save. -/
def POST (env : Env) (db : List Row) (cur : Option String) (b : ReqBody) : PostOutcome :=
  if optStrFalsy b.prompt then
    ⟨Except.error ⟨400, "Prompt is required"⟩, db, cur, [], ""⟩
  else
    let p := b.prompt.getD ""
    let sid := getChatMemory cur b.sessionId env.freshId
    let db1 := saveMessage db sid Role.user p
    let memory := getMemory db1 sid 10
    let memoryContext := formatMemoryForPrompt memory
    let enhanced := buildEnhanced p memoryContext b
    finishPost db1 (some sid) sid memoryContext (runBranch env b enhanced)

/-! ## `src/app/api/local/route.ts`, `generateText` response extraction -/

/-- The response-extraction `switch (format)` of `generateText` in the local
route: `openai` reads `data.choices?.[0]?.message?.content || data.response`,
`ollama` reads `data.response || data.text`, `custom` reads
`data.response || data.text || data.content || JSON.stringify(data)`; the
`responseText` variable starts as the empty string. -/
def localGenerateExtract (format : String) (data : Json) : Except String String :=
  if format = "openai" then do
    let c ← jsMember data "choices"
    let v := jsOrV (jsOptMember (jsOptMember (jsOptIndex c 0) "message") "content")
      (jsOptMember data "response")
    pure (if jsTruthy v then jsToDisplayString v else "")
  else if format = "ollama" then do
    let r ← jsMember data "response"
    let v := jsOrV r (jsOptMember data "text")
    pure (if jsTruthy v then jsToDisplayString v else "")
  else if format = "custom" then do
    let r ← jsMember data "response"
    let v := jsOrV r (jsOrV (jsOptMember data "text") (jsOptMember data "content"))
    pure (if jsTruthy v then jsToDisplayString v else jsonStringify data)
  else Except.ok ""

/-! ## Spec-side comparison definitions -/

/-- Modelled from the spec: one context line, `ROLE: content` with the role
upper-cased, for comparison with the source rendering. -/
def specRenderLine (m : ChatMessage) : String :=
  (match m.role with
   | Role.user => "USER"
   | Role.assistant => "ASSISTANT") ++ ": " ++ m.content

/-- Modelled from the spec: the raw-prompt/custom-json extraction order
`choices[0].message.content`, else `content`, else `response`, else the
whole payload serialized, on an always-successful total form. -/
def specRawExtract (data : Json) : String :=
  let v := jsOrV (jsOptMember (jsOptMember (jsOptIndex (jsOptMember data "choices") 0) "message") "content")
    (jsOrV (jsOptMember data "content") (jsOptMember data "response"))
  if jsTruthy v then jsToDisplayString v else jsonStringify data

/-- Modelled from the amended claim: the local route custom-format order
`response`, else `text`, else `content`, else the serialized payload. -/
def specLocalCustomExtract (data : Json) : String :=
  let v := jsOrV (jsOptMember data "response")
    (jsOrV (jsOptMember data "text") (jsOptMember data "content"))
  if jsTruthy v then jsToDisplayString v else jsonStringify data

/-! ## Claim theorems -/

/-- C9: `formatMemoryForPrompt` returns the empty string on the empty
sequence, and renders a non-empty sequence as upper-cased `ROLE: content`
lines joined by newlines inside the labeled context block. -/
theorem c9_theorem :
    formatMemoryForPrompt [] = "" ∧
    ∀ (m : ChatMessage) (rest : List ChatMessage),
      formatMemoryForPrompt (m :: rest) =
        "[Previous Conversation Context]\n" ++
          jsJoin "\n" ((m :: rest).map specRenderLine) ++
          "\n[End of Context]\n\n" := by
  refine ⟨rfl, ?_⟩
  intro m rest
  have hmap : (fun x : ChatMessage => roleUpperCase x.role ++ ": " ++ x.content) =
      specRenderLine := by
    funext x
    cases x with
    | mk r c => cases r <;> rfl
  simp [formatMemoryForPrompt, hmap]

/-- C5: `getMemory` (the `recent` operation) returns the earliest `limit`
turns, i.e. exactly the `limit`-prefix of the full ordered history. -/
theorem c5_theorem :
    ∀ (db : List Row) (sid : String) (limit : Nat),
      getMemory db sid limit = (getFullMemory db sid).take limit ∧
      ∃ rest, getFullMemory db sid = getMemory db sid limit ++ rest := by
  intro db sid limit
  have h : getMemory db sid limit = (getFullMemory db sid).take limit := by
    unfold getMemory getFullMemory
    exact List.map_take ..
  refine ⟨h, (getFullMemory db sid).drop limit, ?_⟩
  rw [h]
  exact (List.take_append_drop limit (getFullMemory db sid)).symm

/-- C10: `getChatMemory` with a non-empty session id always yields an
instance carrying that id, while `getChatMemory` with no id after a prior
call returns the existing singleton with its existing session id. -/
theorem c10_theorem :
    (∀ (cur : Option String) (s fresh : String),
      s ≠ "" → getChatMemory cur (some s) fresh = s) ∧
    (∀ (c fresh : String), getChatMemory (some c) none fresh = c) := by
  constructor
  · intro cur s fresh hs
    cases cur with
    | none => simp [getChatMemory, newChatMemory, optStrFalsy, hs]
    | some c =>
        simp only [getChatMemory, newChatMemory, optStrFalsy, Option.getD_some]
        rcases eq_or_ne c s with h | h
        · simp [h, hs]
        · simp [h, hs]
  · intro c fresh
    simp [getChatMemory, optStrFalsy]

/-- Witness for C10 at concrete inputs. -/
theorem c10_witness :
    getChatMemory (some "a") (some "b") "f" = "b" ∧
    getChatMemory (some "a") none "f" = "a" :=
  ⟨c10_theorem.1 (some "a") "b" "f" (by decide), c10_theorem.2 "a" "f"⟩

/-- Environment for the C1 counterexample run: default provider answers
with text `pong`. -/
def c1Env : Env := ⟨fun _ => some ⟨true, 200, Except.ok (Json.obj []), "pong"⟩, none, "fresh1"⟩

/-- Request body with a whitespace-only prompt. -/
def c1Body : ReqBody := ⟨some " ", none, none, none, none, [], some "s1", none, none, [], []⟩

/-- C1 counterexample: a whitespace-only prompt is NOT rejected — the
handler writes the user turn (and then the assistant turn) to memory and
performs a provider dispatch, returning success. -/
theorem c1_counterexample :
    (POST c1Env [] none c1Body).db =
      [⟨"s1", Role.user, " "⟩, ⟨"s1", Role.assistant, "pong"⟩] ∧
    (POST c1Env [] none c1Body).dispatches.length = 1 ∧
    (POST c1Env [] none c1Body).result = Except.ok ⟨"pong", "s1"⟩ :=
  ⟨rfl, rfl, rfl⟩

/-- C1 as amended: a request whose prompt is absent or the empty string is
rejected with the 400 `Prompt is required` error before any side effect —
no memory write, no dispatch, and the session singleton untouched. -/
theorem c1_theorem :
    ∀ (env : Env) (db : List Row) (cur : Option String) (b : ReqBody),
      b.prompt = none ∨ b.prompt = some "" →
      (POST env db cur b).result = Except.error ⟨400, "Prompt is required"⟩ ∧
      (POST env db cur b).db = db ∧
      (POST env db cur b).dispatches = [] ∧
      (POST env db cur b).cur = cur := by
  intro env db cur b h
  rcases h with h | h <;> simp [POST, optStrFalsy, h]

/-- Request body with a missing prompt, for the C1 witness. -/
def c1EmptyBody : ReqBody := ⟨none, none, none, none, none, [], none, none, none, [], []⟩

/-- Witness for the amended C1 at a concrete input. -/
theorem c1_witness :
    (POST c1Env [] none c1EmptyBody).result = Except.error ⟨400, "Prompt is required"⟩ ∧
    (POST c1Env [] none c1EmptyBody).db = [] ∧
    (POST c1Env [] none c1EmptyBody).dispatches = [] ∧
    (POST c1Env [] none c1EmptyBody).cur = none :=
  c1_theorem c1Env [] none c1EmptyBody (Or.inl rfl)

/-- Payload carrying both a `content` and a `response` field. -/
def c6Payload : Json := Json.obj [("content", Json.str "a"), ("response", Json.str "b")]

/-- C6 counterexample: the two cited raw/custom extraction sites disagree —
the text route custom branch picks `content` first (yielding `a`), while
the local route custom format picks `response` first (yielding `b`), so no
single `choices`/`content`/`response` order describes both. -/
theorem c6_counterexample :
    extractCustomRoute c6Payload = Except.ok "a" ∧
    localGenerateExtract "custom" c6Payload = Except.ok "b" :=
  ⟨rfl, rfl⟩

/-- C6 as amended: the text route custom branch follows the
`choices[0].message.content`, `content`, `response`, serialized-payload
order; the local route custom format follows the `response`, `text`,
`content`, serialized-payload order; and on the empty object both return
its JSON serialization rather than an error. -/
theorem c6_theorem :
    (∀ fs, extractCustomRoute (Json.obj fs) = Except.ok (specRawExtract (Json.obj fs))) ∧
    (∀ fs, localGenerateExtract "custom" (Json.obj fs) =
      Except.ok (specLocalCustomExtract (Json.obj fs))) ∧
    extractCustomRoute (Json.obj []) = Except.ok "\x7b\x7d" ∧
    localGenerateExtract "custom" (Json.obj []) = Except.ok "\x7b\x7d" := by
  refine ⟨fun fs => ?_, fun fs => ?_, rfl, rfl⟩
  · rfl
  · rfl

/-- Environment for the C7 failing input: an OpenAI key is present and the
provider replies 200 with the JSON body `\x7b\x7d`. -/
def c7Env : Env := ⟨fun _ => some ⟨true, 200, Except.ok (Json.obj []), "raw"⟩, some "k", "f"⟩

/-- Request body selecting the built-in OpenAI provider. -/
def c7Body : ReqBody := ⟨some "hi", none, none, none, none, [], some "s", some "openai", none, [], []⟩

/-- C7 failing input evaluated: on a transport-successful empty-object
payload the OpenAI-dialect extraction itself throws a `TypeError`
(`data.choices[0]` indexes `undefined`), which surfaces to the caller as a
500 error instead of degrading to a fallback extraction — while the custom
branch extraction on the same payload degrades to the serialized payload as
the spec describes. -/
theorem c7_code_bug :
    extractOpenAI (Json.obj []) =
      Except.error "TypeError: cannot read 0 of undefined" ∧
    (POST c7Env [] none c7Body).result =
      Except.error ⟨500, "TypeError: cannot read 0 of undefined"⟩ ∧
    extractCustomRoute (Json.obj []) = Except.ok "\x7b\x7d" :=
  ⟨rfl, rfl, rfl⟩

/-- Environment for the C8 runs: the provider always answers `ok!`. -/
def c8Env : Env := ⟨fun _ => some ⟨true, 200, Except.ok (Json.obj []), "ok!"⟩, none, "f"⟩

/-- First C8 call body (prompt `hello`, session `s`). -/
def c8Body1 : ReqBody :=
  ⟨some "hello", none, none, none, none, [], some "s", some "pollinations", none, [], []⟩

/-- Second C8 call body (prompt `howdy`, session `s`). -/
def c8Body2 : ReqBody :=
  ⟨some "howdy", none, none, none, none, [], some "s", some "pollinations", none, [], []⟩

/-- The first C8 call. -/
def c8FirstCall : PostOutcome := POST c8Env [] none c8Body1

/-- The second C8 call, continuing from the first call's state. -/
def c8SecondCall : PostOutcome := POST c8Env c8FirstCall.db c8FirstCall.cur c8Body2

/-- C8 counterexample: the second call's injected context contains three
lines — the first call's user and assistant turns AND the second call's own
user turn (saved before the context read) — not exactly the first call's
two turns. -/
theorem c8_counterexample :
    c8SecondCall.contextUsed =
      "[Previous Conversation Context]\nUSER: hello\nASSISTANT: ok!\nUSER: howdy\n[End of Context]\n\n" ∧
    c8SecondCall.contextUsed ≠
      "[Previous Conversation Context]\nUSER: hello\nASSISTANT: ok!\n[End of Context]\n\n" :=
  ⟨rfl, by decide⟩

/-- C2: a request whose provider id matches no built-in and no
caller-supplied custom/local entry falls back to the default credential-free
Pollinations provider: exactly one dispatch is made, to Pollinations, and
the caller receives the success result, not an unresolved-provider error. -/
theorem c2_theorem (env : Env) (db : List Row) (cur : Option String) (b : ReqBody)
    (a p : String) (resp : NetResp)
    (hp : b.prompt = some p) (hp2 : p ≠ "")
    (ha : b.selectedApi = some a)
    (h1 : a ≠ "openai") (h2 : a ≠ "mistral") (h3 : a ≠ "claude")
    (h4 : a ≠ "pollinations") (h5 : a ≠ "")
    (hfind : (b.customApis ++ b.localModels).find? (fun c => decide (c.id = a)) = none)
    (hcfg : b.selectedApiConfig = none)
    (hnet : ∀ d, env.net d = some resp) (hok : resp.ok = true) :
    (POST env db cur b).dispatches.map DispatchReq.target = [Target.pollinationsGET] ∧
    (POST env db cur b).result =
      Except.ok ⟨resp.textBody, getChatMemory cur b.sessionId env.freshId⟩ := by
  have hfalse : optStrFalsy b.prompt = false := by
    rw [hp]; simp [optStrFalsy, hp2]
  simp only [POST, hfalse, Bool.false_eq_true, if_false, runBranch, ha, Option.some.injEq,
    h1, h2, h3, h4, if_false, customBranch, hcfg, hfind, Option.getD_some,
    fallbackNotFound, fallbackFromCatch, hnet, hok, if_true, finishPost,
    optStrFalsy, h5, decide_eq_true_eq]
  simp [pollinationsPlain, hok, finishPost, hp, hp2]

/-- The provider response used by the C2 witness. -/
def c2Resp : NetResp := ⟨true, 200, Except.ok (Json.obj []), "pong2"⟩

/-- Environment for the C2 witness. -/
def c2Env : Env := ⟨fun _ => some c2Resp, none, "f2"⟩

/-- Request body naming an unknown provider id against an empty
caller-supplied catalog. -/
def c2Body : ReqBody :=
  ⟨some "hi", none, none, none, none, [], some "s2", some "zzz", none, [], []⟩

/-- Witness for C2 at a concrete input. -/
theorem c2_witness :
    (POST c2Env [] none c2Body).dispatches.map DispatchReq.target = [Target.pollinationsGET] ∧
    (POST c2Env [] none c2Body).result = Except.ok ⟨"pong2", "s2"⟩ := by
  have h := c2_theorem c2Env [] none c2Body "zzz" "hi" c2Resp rfl (by decide) rfl
    (by decide) (by decide) (by decide) (by decide) (by decide) rfl rfl (fun _ => rfl) rfl
  exact ⟨h.1, h.2⟩

/-- C3: a request routed to the built-in OpenAI (openai-chat) dialect with
no credential in the caller-supplied descriptor and no process-level
fallback key fails with the 400 `OpenAI API key is required` error, and no
network dispatch is made. -/
theorem c3_theorem (env : Env) (db : List Row) (cur : Option String) (b : ReqBody) (p : String)
    (hp : b.prompt = some p) (hp2 : p ≠ "")
    (ha : b.selectedApi = some "openai")
    (hkey : optStrFalsy (b.selectedApiConfig.bind (fun c => c.apiKey)) = true)
    (henv : optStrFalsy env.openaiKey = true) :
    (POST env db cur b).result = Except.error ⟨400, "OpenAI API key is required"⟩ ∧
    (POST env db cur b).dispatches = [] := by
  have hfalse : optStrFalsy b.prompt = false := by
    rw [hp]; simp [optStrFalsy, hp2]
  simp only [POST, hfalse, Bool.false_eq_true, if_false, runBranch, ha, if_true,
    jsOrOpt, hkey, henv, finishPost]
  simp [hp, hp2, henv]

/-- Environment with no process-level OpenAI key, for the C3 witness. -/
def c3Env : Env := ⟨fun _ => some ⟨true, 200, Except.ok (Json.obj []), "x"⟩, none, "f3"⟩

/-- Request body selecting the OpenAI provider with no credential anywhere. -/
def c3Body : ReqBody :=
  ⟨some "hi", none, none, none, none, [], some "s3", some "openai", none, [], []⟩

/-- Witness for C3 at a concrete input. -/
theorem c3_witness :
    (POST c3Env [] none c3Body).result = Except.error ⟨400, "OpenAI API key is required"⟩ ∧
    (POST c3Env [] none c3Body).dispatches = [] :=
  c3_theorem c3Env [] none c3Body "hi" rfl (by decide) rfl rfl rfl

/-- Helper: the handler tail leaves the database at its post-user-turn state,
appending an assistant turn exactly when the overall result is a success,
whose content is that success's response text. -/
theorem finishPost_db (db1 : List Row) (cur1 : Option String) (sid : String)
    (mc : String) (out : BranchOut) :
    (finishPost db1 cur1 sid mc out).db =
      db1 ++ (match (finishPost db1 cur1 sid mc out).result with
              | Except.ok r => [⟨sid, Role.assistant, r.response⟩]
              | Except.error _ => []) := by
  cases out with
  | earlyErr st msg ds => simp [finishPost]
  | thrown msg ds => simp [finishPost]
  | done resp data ds =>
      cases resp with
      | none => simp [finishPost]
      | some r =>
          by_cases hr : r.ok = true
          · simp [finishPost, hr, saveMessage]
          · simp [finishPost, hr]

/-- C4: whenever a generation attempt with a valid prompt fails (any error
outcome, including a failed or absent provider response), the database
still ends with the user turn appended for the request and no assistant
turn; an assistant turn is appended exactly on success. -/
theorem c4_theorem (env : Env) (db : List Row) (cur : Option String) (b : ReqBody) (p : String)
    (hp : b.prompt = some p) (hp2 : p ≠ "") :
    (POST env db cur b).db =
      db ++ [⟨getChatMemory cur b.sessionId env.freshId, Role.user, p⟩] ++
        (match (POST env db cur b).result with
         | Except.ok r =>
             [⟨getChatMemory cur b.sessionId env.freshId, Role.assistant, r.response⟩]
         | Except.error _ => []) := by
  have hfalse : optStrFalsy (some p) = false := by
    simp [optStrFalsy, hp2]
  simp only [POST, hp, Option.getD_some, hfalse, Bool.false_eq_true, if_false]
  rw [finishPost_db]
  simp [saveMessage]

/-- Environment whose provider always fails with a 503, for the C4 witness. -/
def c4Env : Env := ⟨fun _ => some ⟨false, 503, Except.ok (Json.obj []), "boom"⟩, none, "f4"⟩

/-- Request body for the C4 witness (default provider, session `s4`). -/
def c4Body : ReqBody :=
  ⟨some "hi", none, none, none, none, [], some "s4", none, none, [], []⟩

/-- Witness for C4: on a failed provider call the history afterwards is
exactly the prior history plus the user turn. -/
theorem c4_witness :
    (POST c4Env [] none c4Body).db = [⟨"s4", Role.user, "hi"⟩] := by
  have h := c4_theorem c4Env [] none c4Body "hi" rfl (by decide)
  rw [h]
  rfl

/-- Environment for the C8 property: every provider call succeeds with
text `r1`. -/
def mkC8Env (r1 : String) (k : Option String) (f : String) : Env :=
  ⟨fun _ => some ⟨true, 200, Except.ok (Json.obj []), r1⟩, k, f⟩

/-- A plain Pollinations request body for the C8 property. -/
def mkC8Body (p sid : String) : ReqBody :=
  ⟨some p, none, none, none, none, [], some sid, some "pollinations", none, [], []⟩

/-- C8 as amended: for two sequential calls on the same session, each with a
successful provider response, the injected context of the second call is
exactly the first call's user turn, the first call's assistant turn, and
the second call's own user turn (saved before the context read), formatted
as three `ROLE: content` lines in the labeled block. -/
theorem c8_theorem (p1 p2 r1 sid : String) (k : Option String) (f : String)
    (h1 : p1 ≠ "") (h2 : p2 ≠ "") (hs : sid ≠ "") :
    (POST (mkC8Env r1 k f)
        (POST (mkC8Env r1 k f) [] none (mkC8Body p1 sid)).db
        (POST (mkC8Env r1 k f) [] none (mkC8Body p1 sid)).cur
        (mkC8Body p2 sid)).contextUsed =
      formatMemoryForPrompt
        [⟨Role.user, p1⟩, ⟨Role.assistant, r1⟩, ⟨Role.user, p2⟩] := by
  simp [POST, mkC8Env, mkC8Body, getChatMemory, newChatMemory, optStrFalsy,
    h1, h2, hs, saveMessage, getMemory, sessionRows, runBranch, finishPost,
    List.filter, List.take]

/-- Witness for the amended C8 at concrete inputs. -/
theorem c8_witness :
    (POST (mkC8Env "ok!" none "f")
        (POST (mkC8Env "ok!" none "f") [] none (mkC8Body "hello" "s")).db
        (POST (mkC8Env "ok!" none "f") [] none (mkC8Body "hello" "s")).cur
        (mkC8Body "howdy" "s")).contextUsed =
      formatMemoryForPrompt
        [⟨Role.user, "hello"⟩, ⟨Role.assistant, "ok!"⟩, ⟨Role.user, "howdy"⟩] :=
  c8_theorem "hello" "howdy" "ok!" "s" none "f" (by decide) (by decide) (by decide)

end DeepAI
